import Mathlib

/-!
# Verification of the UniFlex unit-converter core

A shallow embedding of the converter's core: the dimensional conversion
engine (unit registry, dimension vectors, affine conversion, currency
delegation), the query-interpretation strategies (the regex parser and
the structured-model parsers), and the `converter_app` orchestrator.

Magnitudes are modelled as exact rationals (`ℚ`): the source computes in
IEEE-754 doubles, which we idealise as exact arithmetic; every claim
settled here is about the arithmetic the code performs, not about
rounding of individual float operations.
-/

set_option maxRecDepth 10000

namespace UniFlex

/-- Modelled from the spec (§3): the fixed basis of physical dimensions
{length, mass, time, temperature, current, substance, luminosity,
digital-storage, currency}.  A dimension vector is a tuple of integer
exponents over this basis; the dimensional-analysis library the source
delegates to (`pint`) is not part of the repository, so the vector model
follows the spec's data model. -/
structure Dim where
  length : Int
  mass : Int
  time : Int
  temperature : Int
  current : Int
  substance : Int
  luminosity : Int
  storage : Int
  currency : Int
deriving DecidableEq

/-- The zero dimension vector (dimensionless). -/
def dimZero : Dim := ⟨0, 0, 0, 0, 0, 0, 0, 0, 0⟩

def dimLength : Dim := { dimZero with length := 1 }
def dimMass : Dim := { dimZero with mass := 1 }
def dimTime : Dim := { dimZero with time := 1 }
def dimTemperature : Dim := { dimZero with temperature := 1 }
def dimSpeed : Dim := { dimZero with length := 1, time := -1 }
def dimArea : Dim := { dimZero with length := 2 }
def dimVolume : Dim := { dimZero with length := 3 }
def dimEnergy : Dim := { dimZero with mass := 1, length := 2, time := -2 }
def dimStorage : Dim := { dimZero with storage := 1 }

/-- The dimension vector of currency units. -/
def currencyDim : Dim := { dimZero with currency := 1 }

/-- Modelled from the spec (§3): a registered unit — identifier,
dimension vector, multiplicative scale to the dimension's base unit, and
additive offset for affine scales (°C, °F). -/
structure SpecUnit where
  name : String
  dim : Dim
  scale : ℚ
  offset : ℚ
deriving DecidableEq

/-- Error kinds of the conversion engine and the currency rate adapter
(spec §7). -/
inductive ConvError where
  | IncompatibleUnits
  | RateUnavailable
  | RateSourceError
deriving DecidableEq

/-- The currency rate adapter capability (spec §4.3): an external
collaborator supplying a scalar exchange rate; it may fail. -/
abbrev RateAdapter := String → String → Except ConvError ℚ

/-- Modelled from the spec (§4.2): the dimensional conversion engine,
instrumented with the list of rate-adapter calls it performs.  Steps:
(1) unequal dimension vectors fail with `IncompatibleUnits`; (2) the
currency dimension delegates to the rate adapter and multiplies
`value * rate`; (3) otherwise `base = (value + offset) * scale` for
affine units (`base = value * scale` otherwise) and
`result = base / targetScale - targetOffset`.  The second component of
the result records each `getRate` invocation as a `(from, to)` pair. -/
def convertT (getRate : RateAdapter) (value : ℚ) (s t : SpecUnit) :
    Except ConvError ℚ × List (String × String) :=
  if s.dim ≠ t.dim then
    (.error .IncompatibleUnits, [])
  else if s.dim = currencyDim then
    ((getRate s.name t.name).map (fun r => value * r), [(s.name, t.name)])
  else
    (.ok ((if s.offset ≠ 0 then (value + s.offset) * s.scale else value * s.scale)
          / t.scale - t.offset), [])

/-- The engine's numeric result (spec §4.2 `convert`). -/
def convert (getRate : RateAdapter) (value : ℚ) (s t : SpecUnit) : Except ConvError ℚ :=
  (convertT getRate value s t).1

/-- The trace of rate-adapter calls one engine request performs. -/
def convertCalls (getRate : RateAdapter) (value : ℚ) (s t : SpecUnit) :
    List (String × String) :=
  (convertT getRate value s t).2

/-! ## The unit catalogue

Modelled from the spec (§4.1, §6): the registry's seed table, covering
exactly the categories the source's `categories` table lists
(`src/unitconvertor.py` lines 61–72) plus the currency codes of
`convert_currency` (line 98).  The numeric scale factors are those of
the `pint` catalogue the source resolves these tokens against; `pint`
itself is not part of the repository. -/

def meter : SpecUnit := ⟨"meter", dimLength, 1, 0⟩
def kilometer : SpecUnit := ⟨"kilometer", dimLength, 1000, 0⟩
def mile : SpecUnit := ⟨"mile", dimLength, 1609.344, 0⟩
def yard : SpecUnit := ⟨"yard", dimLength, 0.9144, 0⟩
def foot : SpecUnit := ⟨"foot", dimLength, 0.3048, 0⟩
def inch : SpecUnit := ⟨"inch", dimLength, 0.0254, 0⟩
def centimeter : SpecUnit := ⟨"centimeter", dimLength, 0.01, 0⟩
def millimeter : SpecUnit := ⟨"millimeter", dimLength, 0.001, 0⟩

def kilogram : SpecUnit := ⟨"kilogram", dimMass, 1, 0⟩
def gram : SpecUnit := ⟨"gram", dimMass, 0.001, 0⟩
def pound : SpecUnit := ⟨"pound", dimMass, 0.45359237, 0⟩
def ounce : SpecUnit := ⟨"ounce", dimMass, 0.028349523125, 0⟩
def ton : SpecUnit := ⟨"ton", dimMass, 907.18474, 0⟩
def stone : SpecUnit := ⟨"stone", dimMass, 6.35029318, 0⟩

def celsius : SpecUnit := ⟨"celsius", dimTemperature, 1, 273.15⟩
def fahrenheit : SpecUnit := ⟨"fahrenheit", dimTemperature, 5/9, 459.67⟩
def kelvin : SpecUnit := ⟨"kelvin", dimTemperature, 1, 0⟩

def meter_per_second : SpecUnit := ⟨"meter/second", dimSpeed, 1, 0⟩
def kilometer_per_hour : SpecUnit := ⟨"kilometer/hour", dimSpeed, 5/18, 0⟩
def mile_per_hour : SpecUnit := ⟨"mile/hour", dimSpeed, 1609.344/3600, 0⟩
def knot : SpecUnit := ⟨"knot", dimSpeed, 1852/3600, 0⟩

def second : SpecUnit := ⟨"second", dimTime, 1, 0⟩
def minute : SpecUnit := ⟨"minute", dimTime, 60, 0⟩
def hour : SpecUnit := ⟨"hour", dimTime, 3600, 0⟩
def day : SpecUnit := ⟨"day", dimTime, 86400, 0⟩
def week : SpecUnit := ⟨"week", dimTime, 604800, 0⟩
def month : SpecUnit := ⟨"month", dimTime, 2629800, 0⟩
def year : SpecUnit := ⟨"year", dimTime, 31557600, 0⟩

def square_meter : SpecUnit := ⟨"meter ** 2", dimArea, 1, 0⟩
def square_kilometer : SpecUnit := ⟨"kilometer ** 2", dimArea, 1000000, 0⟩
def square_mile : SpecUnit := ⟨"mile ** 2", dimArea, 1609.344 * 1609.344, 0⟩
def square_yard : SpecUnit := ⟨"yard ** 2", dimArea, 0.9144 * 0.9144, 0⟩
def square_foot : SpecUnit := ⟨"foot ** 2", dimArea, 0.3048 * 0.3048, 0⟩
def square_inch : SpecUnit := ⟨"inch ** 2", dimArea, 0.0254 * 0.0254, 0⟩
def hectare : SpecUnit := ⟨"hectare", dimArea, 10000, 0⟩
def acre : SpecUnit := ⟨"acre", dimArea, 4046.8564224, 0⟩

def liter : SpecUnit := ⟨"liter", dimVolume, 0.001, 0⟩
def milliliter : SpecUnit := ⟨"milliliter", dimVolume, 0.000001, 0⟩
def gallon : SpecUnit := ⟨"gallon", dimVolume, 0.003785411784, 0⟩
def cubic_meter : SpecUnit := ⟨"meter ** 3", dimVolume, 1, 0⟩
def cubic_centimeter : SpecUnit := ⟨"centimeter ** 3", dimVolume, 0.000001, 0⟩

def joule : SpecUnit := ⟨"joule", dimEnergy, 1, 0⟩
def kilojoule : SpecUnit := ⟨"kilojoule", dimEnergy, 1000, 0⟩
def calorie : SpecUnit := ⟨"calorie", dimEnergy, 4.184, 0⟩
def kilocalorie : SpecUnit := ⟨"kilocalorie", dimEnergy, 4184, 0⟩
def watt_hour : SpecUnit := ⟨"watt_hour", dimEnergy, 3600, 0⟩
def kilowatt_hour : SpecUnit := ⟨"kilowatt_hour", dimEnergy, 3600000, 0⟩

def bit : SpecUnit := ⟨"bit", dimStorage, 1, 0⟩
def byte : SpecUnit := ⟨"byte", dimStorage, 8, 0⟩
def kilobyte : SpecUnit := ⟨"kilobyte", dimStorage, 8000, 0⟩
def megabyte : SpecUnit := ⟨"megabyte", dimStorage, 8000000, 0⟩
def gigabyte : SpecUnit := ⟨"gigabyte", dimStorage, 8000000000, 0⟩
def terabyte : SpecUnit := ⟨"terabyte", dimStorage, 8000000000000, 0⟩

def usd : SpecUnit := ⟨"USD", currencyDim, 1, 0⟩
def eur : SpecUnit := ⟨"EUR", currencyDim, 1, 0⟩
def gbp : SpecUnit := ⟨"GBP", currencyDim, 1, 0⟩
def jpy : SpecUnit := ⟨"JPY", currencyDim, 1, 0⟩
def aud : SpecUnit := ⟨"AUD", currencyDim, 1, 0⟩
def cad : SpecUnit := ⟨"CAD", currencyDim, 1, 0⟩
def inr : SpecUnit := ⟨"INR", currencyDim, 1, 0⟩
def cny : SpecUnit := ⟨"CNY", currencyDim, 1, 0⟩

/-- The registry's full seed table (spec §4.1): every unit of the
source's category table plus the currency codes. -/
def registry : List SpecUnit :=
  [meter, kilometer, mile, yard, foot, inch, centimeter, millimeter,
   kilogram, gram, pound, ounce, ton, stone,
   celsius, fahrenheit, kelvin,
   meter_per_second, kilometer_per_hour, mile_per_hour, knot,
   second, minute, hour, day, week, month, year,
   square_meter, square_kilometer, square_mile, square_yard, square_foot,
   square_inch, hectare, acre,
   liter, milliliter, gallon, cubic_meter, cubic_centimeter,
   joule, kilojoule, calorie, kilocalorie, watt_hour, kilowatt_hour,
   bit, byte, kilobyte, megabyte, gigabyte, terabyte,
   usd, eur, gbp, jpy, aud, cad, inr, cny]

/-! ## The two conversion paths of `convert_units`

`src/unitconvertor.py` lines 84–88 routes the temperature category
through `ureg.Quantity(value, from).to(to)` and every other category
through `(value * ureg(from)).to(to)`.  Both paths execute inside
`pint`, which is not part of the repository; the two definitions below
are modelled from the spec's engine algorithm (§4.2) and `pint`'s
documented operation semantics: `.to` performs the full affine
conversion, while multiplying a bare number by an offset (affine) unit
is rejected (`OffsetUnitCalculusError`). -/

/-- Errors `pint` raises on the two paths. -/
inductive PintError where
  | DimensionalityError
  | OffsetUnitCalculusError
  | UndefinedUnitError
deriving DecidableEq

/-- The temperature branch of `convert_units` (line 86):
`ureg.Quantity(input_value, ureg(from_unit)).to(ureg(to_unit))`.
Constructing a Quantity in an affine unit and calling `.to` applies the
full affine conversion. -/
def quantityPath (value : ℚ) (s t : SpecUnit) : Except PintError ℚ :=
  if s.dim ≠ t.dim then .error .DimensionalityError
  else .ok ((value + s.offset) * s.scale / t.scale - t.offset)

/-- The general branch of `convert_units` (line 88):
`(input_value * ureg(from_unit)).to(to_unit)`.  Multiplying a bare
number by an offset unit raises `OffsetUnitCalculusError`; otherwise
`.to` converts `value * scale` into the target, removing the target's
offset. -/
def mulPath (value : ℚ) (s t : SpecUnit) : Except PintError ℚ :=
  if s.offset ≠ 0 then .error .OffsetUnitCalculusError
  else if s.dim ≠ t.dim then .error .DimensionalityError
  else .ok (value * s.scale / t.scale - t.offset)

/-! ## Token resolution and the pure `convert_units` -/

/-- Modelled from the spec (§4.1): the registry's alias table used by
`resolve` — each accepted token mapped to its registered unit.  The
source resolves these tokens through `pint`'s catalogue (not in the
repository); lookup is case-insensitive per the spec. -/
def aliasTable : List (String × SpecUnit) :=
  [("meter", meter), ("meters", meter), ("m", meter), ("metre", meter),
   ("kilometer", kilometer), ("kilometers", kilometer), ("km", kilometer),
   ("mile", mile), ("miles", mile), ("mi", mile),
   ("yard", yard), ("yards", yard), ("yd", yard),
   ("foot", foot), ("feet", foot), ("ft", foot),
   ("inch", inch), ("inches", inch),
   ("centimeter", centimeter), ("cm", centimeter),
   ("millimeter", millimeter), ("mm", millimeter),
   ("kilogram", kilogram), ("kilograms", kilogram), ("kg", kilogram),
   ("gram", gram), ("grams", gram), ("g", gram),
   ("pound", pound), ("pounds", pound), ("lb", pound), ("lbs", pound),
   ("ounce", ounce), ("ounces", ounce), ("oz", ounce),
   ("ton", ton), ("stone", stone),
   ("celsius", celsius), ("°c", celsius), ("degc", celsius),
   ("fahrenheit", fahrenheit), ("°f", fahrenheit), ("degf", fahrenheit),
   ("kelvin", kelvin),
   ("second", second), ("seconds", second), ("s", second), ("sec", second),
   ("minute", minute), ("minutes", minute), ("min", minute),
   ("hour", hour), ("hours", hour), ("h", hour), ("hr", hour),
   ("day", day), ("days", day),
   ("week", week), ("weeks", week),
   ("month", month), ("months", month),
   ("year", year), ("years", year),
   ("hectare", hectare), ("acre", acre), ("acres", acre),
   ("liter", liter), ("liters", liter), ("l", liter), ("litre", liter),
   ("milliliter", milliliter), ("ml", milliliter),
   ("gallon", gallon), ("gallons", gallon),
   ("joule", joule), ("joules", joule), ("j", joule),
   ("kilojoule", kilojoule), ("kj", kilojoule),
   ("calorie", calorie), ("calories", calorie), ("cal", calorie),
   ("kilocalorie", kilocalorie), ("kcal", kilocalorie),
   ("watt_hour", watt_hour), ("kilowatt_hour", kilowatt_hour),
   ("bit", bit), ("bits", bit),
   ("byte", byte), ("bytes", byte),
   ("kilobyte", kilobyte), ("kb", kilobyte),
   ("megabyte", megabyte), ("mb", megabyte),
   ("gigabyte", gigabyte), ("gb", gigabyte),
   ("terabyte", terabyte), ("tb", terabyte)]

/-- Lower-case a token (ASCII), as the case-insensitive resolver
compares tokens. -/
def lowerTok (s : String) : String := String.mk (s.data.map Char.toLower)

/-- Resolver `resolve(token)` (spec §4.1): case-insensitive alias lookup; `none`
models the `UnknownUnit` / `UndefinedUnitError` failure. -/
def resolveToken (tok : String) : Option SpecUnit :=
  (aliasTable.find? (fun p => p.1 = lowerTok tok)).map Prod.snd

/-- The pure conversion function of the source (commented tier,
`src/unitconvertor.py` lines 258–264): resolve both tokens through the
registry, run `(value * ureg(source)).to(target)`, and return the
magnitude; any exception inside the `try` block yields `None`. -/
def convert_units (value : ℚ) (source_unit target_unit : String) : Option ℚ :=
  match resolveToken source_unit, resolveToken target_unit with
  | some su, some tu =>
    match mulPath value su tu with
    | .ok r => some r
    | .error _ => none
  | _, _ => none

/-! ## JSON values and `json.loads`

The structured-model strategies return `json.loads(text)` verbatim on
success.  `json` is the Python standard library, not repository code;
the parser below is modelled from the spec's JSON-object contract
(§4.4) and the JSON grammar, restricted to the forms the strategies
exchange: objects, arrays, strings (common escapes; `\uXXXX` escapes
are not modelled), numbers (with fraction and exponent), booleans and
null. -/

inductive JVal where
  | jnull
  | jbool (b : Bool)
  | jnum (q : ℚ)
  | jstr (s : String)
  | jarr (elems : List JVal)
  | jobj (fields : List (String × JVal))

/-- JSON whitespace skipping. -/
def jskipWs : List Char → List Char
  | c :: rest =>
    if c = ' ' ∨ c = '\t' ∨ c = '\n' ∨ c = '\r' then jskipWs rest else c :: rest
  | [] => []

/-- Decimal digit test. -/
def isDigitCh (c : Char) : Bool := '0' ≤ c ∧ c ≤ '9'

/-- Numeric value of a digit string. -/
def digitsToNat (ds : List Char) : Nat :=
  ds.foldl (fun n c => 10 * n + (c.toNat - '0'.toNat)) 0

/-- JSON string body after the opening quote; returns the decoded text
and the input remaining after the closing quote. -/
def parseJString (acc : List Char) : List Char → Option (String × List Char)
  | [] => none
  | '\\' :: c :: rest =>
    if c = '"' then parseJString ('"' :: acc) rest
    else if c = '\\' then parseJString ('\\' :: acc) rest
    else if c = '/' then parseJString ('/' :: acc) rest
    else if c = 'n' then parseJString ('\n' :: acc) rest
    else if c = 't' then parseJString ('\t' :: acc) rest
    else if c = 'r' then parseJString ('\r' :: acc) rest
    else if c = 'b' then parseJString ('\x08' :: acc) rest
    else if c = 'f' then parseJString ('\x0c' :: acc) rest
    else none
  | c :: rest =>
    if c = '"' then some (String.mk acc.reverse, rest)
    else parseJString (c :: acc) rest

/-- JSON number: `-?digits(.digits)?([eE][+-]?digits)?`. -/
def parseJNumber (s : List Char) : Option (ℚ × List Char) :=
  let (neg, s1) := match s with
    | '-' :: r => (true, r)
    | _ => (false, s)
  let (ds, s2) := s1.span isDigitCh
  if ds.isEmpty then none
  else
    let afterFrac : Option (ℚ × List Char) :=
      match s2 with
      | '.' :: r =>
        let (fs, r2) := r.span isDigitCh
        if fs.isEmpty then none
        else some ((digitsToNat ds : ℚ) + (digitsToNat fs : ℚ) / (10 : ℚ) ^ fs.length, r2)
      | _ => some ((digitsToNat ds : ℚ), s2)
    match afterFrac with
    | none => none
    | some (q, s3) =>
      let afterExp : Option (ℚ × List Char) :=
        match s3 with
        | c :: r =>
          if c = 'e' ∨ c = 'E' then
            let (edown, r1) := match r with
              | '-' :: rr => (true, rr)
              | '+' :: rr => (false, rr)
              | _ => (false, r)
            let (es, r2) := r1.span isDigitCh
            if es.isEmpty then none
            else
              let f : ℚ := (10 : ℚ) ^ digitsToNat es
              some (if edown then q / f else q * f, r2)
          else some (q, s3)
        | [] => some (q, [])
      afterExp.map (fun (v, r) => (if neg then -v else v, r))

/-- Literal keyword match (`true`, `false`, `null` tails). -/
def matchLit (lit : List Char) (s : List Char) : Option (List Char) :=
  match lit, s with
  | [], rest => some rest
  | l :: ls, c :: cs => if c = l then matchLit ls cs else none
  | _ :: _, [] => none

mutual

/-- One JSON value, fuel-bounded (nesting plus member count never
exceeds the input length, so `length + 2` fuel suffices). -/
def parseJValue : Nat → List Char → Option (JVal × List Char)
  | 0, _ => none
  | fuel + 1, s =>
    match jskipWs s with
    | [] => none
    | c :: rest =>
      if c = '"' then (parseJString [] rest).map (fun (str, r) => (.jstr str, r))
      else if c = '\x7b' then
        match jskipWs rest with
        | '\x7d' :: r2 => some (.jobj [], r2)
        | s2 => parseJMembers fuel [] s2
      else if c = '[' then
        match jskipWs rest with
        | ']' :: r2 => some (.jarr [], r2)
        | s2 => parseJElems fuel [] s2
      else if c = 't' then (matchLit ['r', 'u', 'e'] rest).map ((.jbool true, ·))
      else if c = 'f' then (matchLit ['a', 'l', 's', 'e'] rest).map ((.jbool false, ·))
      else if c = 'n' then (matchLit ['u', 'l', 'l'] rest).map ((.jnull, ·))
      else (parseJNumber (c :: rest)).map (fun (q, r) => (.jnum q, r))

/-- Object members after `\x7b`, accumulating parsed fields. -/
def parseJMembers : Nat → List (String × JVal) → List Char → Option (JVal × List Char)
  | 0, _, _ => none
  | fuel + 1, acc, s =>
    match jskipWs s with
    | '"' :: r =>
      match parseJString [] r with
      | none => none
      | some (key, r2) =>
        match jskipWs r2 with
        | ':' :: r3 =>
          match parseJValue fuel r3 with
          | none => none
          | some (v, r4) =>
            match jskipWs r4 with
            | ',' :: r5 => parseJMembers fuel ((key, v) :: acc) r5
            | '\x7d' :: r5 => some (.jobj ((key, v) :: acc).reverse, r5)
            | _ => none
        | _ => none
    | _ => none

/-- Array elements after `[`, accumulating parsed values. -/
def parseJElems : Nat → List JVal → List Char → Option (JVal × List Char)
  | 0, _, _ => none
  | fuel + 1, acc, s =>
    match parseJValue fuel s with
    | none => none
    | some (v, r) =>
      match jskipWs r with
      | ',' :: r2 => parseJElems fuel (v :: acc) r2
      | ']' :: r2 => some (.jarr (v :: acc).reverse, r2)
      | _ => none

end

/-- Loader `json.loads`: parse one value and require only whitespace after it;
`none` models the raised `JSONDecodeError`. -/
def jsonLoads (s : String) : Option JVal :=
  match parseJValue (s.length + 2) s.data with
  | some (v, rest) => if (jskipWs rest).isEmpty then some v else none
  | none => none

/-- Python `float(str)` on the literals the parsers produce: optional
surrounding whitespace, optional sign, digits with an optional fraction
(either side of the dot may be empty, not both) and an optional
exponent.  (`inf` / `nan` spellings are not modelled.) -/
def pyFloat (s : String) : Option ℚ :=
  let t := (jskipWs s.data).reverse
  let t := (jskipWs t).reverse
  let (neg, s1) := match t with
    | '-' :: r => (true, r)
    | '+' :: r => (false, r)
    | _ => (false, t)
  let (ds, s2) := s1.span isDigitCh
  let mantissa : Option (ℚ × List Char) :=
    match s2 with
    | '.' :: r =>
      let (fs, r2) := r.span isDigitCh
      if ds.isEmpty ∧ fs.isEmpty then none
      else some ((digitsToNat ds : ℚ) + (digitsToNat fs : ℚ) / (10 : ℚ) ^ fs.length, r2)
    | _ => if ds.isEmpty then none else some ((digitsToNat ds : ℚ), s2)
  match mantissa with
  | none => none
  | some (q, s3) =>
    let withExp : Option (ℚ × List Char) :=
      match s3 with
      | c :: r =>
        if c = 'e' ∨ c = 'E' then
          let (edown, r1) := match r with
            | '-' :: rr => (true, rr)
            | '+' :: rr => (false, rr)
            | _ => (false, r)
          let (es, r2) := r1.span isDigitCh
          if es.isEmpty then none
          else
            let f : ℚ := (10 : ℚ) ^ digitsToNat es
            some (if edown then q / f else q * f, r2)
        else some (q, s3)
      | [] => some (q, [])
    match withExp with
    | none => none
    | some (v, rest) => if rest.isEmpty then some (if neg then -v else v) else none

/-- Python `float(x)` applied to a JSON value, as
`float(conversion_details["value"])` does: numbers and booleans coerce,
numeric strings parse, anything else raises (modelled as `none`). -/
def floatOfJVal : JVal → Option ℚ
  | .jnum q => some q
  | .jbool b => some (if b then 1 else 0)
  | .jstr s => pyFloat s
  | _ => none

/-- Dictionary lookup, last binding wins as in a Python dict built by
`json.loads` (later duplicate keys overwrite earlier ones). -/
def lookupField (fields : List (String × JVal)) (key : String) : Option JVal :=
  (fields.reverse.find? (fun p => p.1 = key)).map Prod.snd

/-- How `st.error` / the success f-string render a value.  Only the
string case is reachable on the paths the claims exercise; the other
renderings are placeholders for Python's `str`. -/
def displayJVal : JVal → String
  | .jstr s => s
  | .jnum q => toString q
  | .jbool b => if b then "True" else "False"
  | .jnull => "None"
  | .jarr _ => "<list>"
  | .jobj _ => "<dict>"

/-! ## The structured-model strategies -/

/-- The message of the `JSONDecodeError` the model strategies catch;
the source forwards `str(e)`, whose exact text carries the error
position.  The constant stands for that text. -/
def jsonDecodeError : String := "Expecting value: provider output is not valid JSON"

/-- Strategy `parse_conversion_query_openai` (`src/unitconvertor.py` lines
112–126).  The provider interaction is modelled by its outcome: the
`openai.ChatCompletion.create` call either raises (exception message)
or returns the reply content.  The function returns
`json.loads(content)` verbatim when it parses — with no validation of
required keys — and the dict `{"error": str(e)}` when the call or
`json.loads` raises. -/
def parse_conversion_query_openai (resp : Except String String) : JVal :=
  match resp with
  | .error e => .jobj [("error", .jstr e)]
  | .ok content =>
    match jsonLoads content with
    | some v => v
    | none => .jobj [("error", .jstr jsonDecodeError)]

/-- Strategy `parse_conversion_query_gemini` (`src/unitconvertor.py` lines
131–142): identical shape over the Gemini provider;
`response.text.strip()` is absorbed by `json.loads`'s whitespace
tolerance. -/
def parse_conversion_query_gemini (resp : Except String String) : JVal :=
  match resp with
  | .error e => .jobj [("error", .jstr e)]
  | .ok content =>
    match jsonLoads content with
    | some v => v
    | none => .jobj [("error", .jstr jsonDecodeError)]

/-! ## The pattern-based strategy

`parse_conversion_query_regex` (`src/unitconvertor.py` lines 247–253)
runs `re.search` with

  `(?i)(?:convert\s+)?([-+]?[0-9]*\.?[0-9]+)\s*([a-zA-Z°²³]+)\s+(?:to|in)\s+([a-zA-Z°²³]+)`

The matcher below implements exactly this pattern with Python's
leftmost-first backtracking semantics, in continuation-passing style:
each combinator tries its greedy alternative first and backtracks into
the continuation.  `\s` is the ASCII whitespace class. -/

/-- The three captured groups: value, source token, target token. -/
abbrev ReGroups := String × String × String

/-- The `\s` class (ASCII). -/
def isReSpace (c : Char) : Bool :=
  c = ' ' ∨ c = '\t' ∨ c = '\n' ∨ c = '\r' ∨ c = '\x0b' ∨ c = '\x0c'

/-- The `[a-zA-Z°²³]` unit-token class. -/
def isUnitChar (c : Char) : Bool :=
  ('a' ≤ c ∧ c ≤ 'z') ∨ ('A' ≤ c ∧ c ≤ 'Z') ∨ c = '°' ∨ c = '²' ∨ c = '³'

/-- Greedy `class*` with backtracking: consume as many class characters
as possible, calling the continuation with the accumulated characters
(reversed) and the rest; on failure give one character back at a time. -/
def repStar (p : Char → Bool) (k : List Char → List Char → Option ReGroups) :
    List Char → List Char → Option ReGroups
  | acc, [] => k acc []
  | acc, c :: rest =>
    if p c then
      match repStar p k (c :: acc) rest with
      | some r => some r
      | none => k acc (c :: rest)
    else k acc (c :: rest)

/-- Greedy `class+`: one mandatory character, then `class*`. -/
def repPlus (p : Char → Bool) (k : List Char → List Char → Option ReGroups)
    (acc : List Char) : List Char → Option ReGroups
  | [] => none
  | c :: rest => if p c then repStar p k (c :: acc) rest else none

/-- Case-insensitive literal (the pattern's `(?i)` flag), the literal
given in lower case. -/
def litCI : List Char → (List Char → Option ReGroups) → List Char → Option ReGroups
  | [], k, s => k s
  | l :: ls, k, s =>
    match s with
    | [] => none
    | c :: rest => if c.toLower = l then litCI ls k rest else none

/-- After `(?:to|in)`: `\s+` then the third group `([a-zA-Z°²³]+)`. -/
def reTail2 (num u1 : String) (s : List Char) : Option ReGroups :=
  repPlus isReSpace (fun _ s2 =>
    repPlus isUnitChar (fun acc2 _ => some (num, u1, String.mk acc2.reverse)) [] s2) [] s

/-- The `(?:to|in)` alternation, `to` first. -/
def reToIn (num u1 : String) (s : List Char) : Option ReGroups :=
  match litCI ['t', 'o'] (reTail2 num u1) s with
  | some r => some r
  | none => litCI ['i', 'n'] (reTail2 num u1) s

/-- After the second group: `\s+` then the alternation. -/
def reAfterUnit1 (num u1 : String) (s : List Char) : Option ReGroups :=
  repPlus isReSpace (fun _ s2 => reToIn num u1 s2) [] s

/-- After the first group: `\s*` then the second group `([a-zA-Z°²³]+)`. -/
def reAfterNum (num : String) (s : List Char) : Option ReGroups :=
  repStar isReSpace (fun _ s2 =>
    repPlus isUnitChar (fun acc s3 => reAfterUnit1 num (String.mk acc.reverse) s3) [] s2) [] s

/-- The numeric body `[0-9]*\.?[0-9]+` with the group accumulated in
`acc` (the optional sign may already be there), continuing into the
rest of the pattern. -/
def reNumBody (acc : List Char) (s : List Char) : Option ReGroups :=
  repStar isDigitCh (fun acc1 s1 =>
    match s1 with
    | '.' :: r =>
      match repPlus isDigitCh (fun accN s2 => reAfterNum (String.mk accN.reverse) s2)
          ('.' :: acc1) r with
      | some res => some res
      | none => repPlus isDigitCh (fun accN s2 => reAfterNum (String.mk accN.reverse) s2) acc1 s1
    | _ => repPlus isDigitCh (fun accN s2 => reAfterNum (String.mk accN.reverse) s2) acc1 s1)
    acc s

/-- The first group `([-+]?[0-9]*\.?[0-9]+)`: greedy optional sign,
then the numeric body. -/
def reNumber (s : List Char) : Option ReGroups :=
  match s with
  | c :: rest =>
    if c = '-' ∨ c = '+' then
      match reNumBody [c] rest with
      | some r => some r
      | none => reNumBody [] s
    else reNumBody [] s
  | [] => reNumBody [] []

/-- The whole pattern anchored at the current position: greedy optional
`(?:convert\s+)?` prefix, then the numeric group onward. -/
def matchAt (s : List Char) : Option ReGroups :=
  match litCI ['c', 'o', 'n', 'v', 'e', 'r', 't']
      (fun s1 => repPlus isReSpace (fun _ s2 => reNumber s2) [] s1) s with
  | some r => some r
  | none => reNumber s

/-- Search `re.search`: try the pattern at each start position, leftmost
first. -/
def searchFrom : List Char → Option ReGroups
  | [] => matchAt []
  | c :: rest =>
    match matchAt (c :: rest) with
    | some r => some r
    | none => searchFrom rest

/-- The error message of the regex strategy (line 253). -/
def regexErrorMsg : String := "Invalid format. Use 'Convert 10 km to miles'."

/-- Strategy `parse_conversion_query_regex` (lines 247–253): on a match, the
dict of the three captured groups (all strings); otherwise the error
dict. -/
def parse_conversion_query_regex (query : String) : List (String × JVal) :=
  match searchFrom query.data with
  | some (v, s, t) => [("value", .jstr v), ("source", .jstr s), ("target", .jstr t)]
  | none => [("error", .jstr regexErrorMsg)]

/-! ## The orchestrator `converter_app`

`src/unitconvertor.py` lines 269–306 (the query-pipeline tier).  The
Streamlit effects are modelled as an outcome value: `st.error` becomes
`errorMsg`, `st.success` becomes `success`, and an uncaught Python
exception becomes `crash`.  The two provider interactions enter as the
outcomes of their respective calls. -/

inductive AppOutcome where
  | errorMsg (msg : String)
  | success (value : ℚ) (source target : String) (result : ℚ)
  | crash (msg : String)
deriving DecidableEq

/-- The tail of `converter_app` after a parser has produced
`conversion_details` (lines 293–304): classify by the `"error"` key,
coerce `float(conversion_details["value"])`, read the unit tokens, run
`convert_units`, and render success or the conversion-failure error.
Notes kept faithful to the Python:
* a non-dict strategy outcome eventually raises on `"error" in d` or
  on indexing, whichever Python reaches first — every such path is an
  uncaught exception, modelled as `crash`;
* `float(conversion_details["value"])` raises on a missing key or a
  non-numeric value (uncaught);
* a non-string source/target makes `ureg(...)` raise inside
  `convert_units`'s `try`, which returns `None`, surfacing as the
  "Conversion failed" error. -/
def appProcess (conversion_details : JVal) : AppOutcome :=
  match conversion_details with
  | .jobj fields =>
    match lookupField fields "error" with
    | some ev => .errorMsg (displayJVal ev)
    | none =>
      match lookupField fields "value" with
      | none => .crash "KeyError: value"
      | some v =>
        match floatOfJVal v with
        | none => .crash "float() raised on the extracted value"
        | some value =>
          match lookupField fields "source" with
          | none => .crash "KeyError: source"
          | some sv =>
            match lookupField fields "target" with
            | none => .crash "KeyError: target"
            | some tv =>
              match (match sv, tv with
                     | .jstr s, .jstr t => convert_units value s t
                     | _, _ => none : Option ℚ) with
              | some r => .success value (displayJVal sv) (displayJVal tv) r
              | none => .errorMsg "❌ Conversion failed. Check the units."
  | _ => .crash "TypeError: strategy outcome is not a dict"

/-- Orchestrator `converter_app`, from the button-pressed path with a nonempty
query.  Mode and LLM choice mirror the sidebar radio values; the
availability flags mirror `LLM_OPENAI_AVAILABLE` / `LLM_GEMINI_AVAILABLE`;
the provider interactions enter as the outcomes of their calls.  An
unavailable provider produces `st.error(...)` and `return` — no
fallback to another strategy; an LLM mode with neither recognised
choice leaves `conversion_details` unbound (uncaught
`UnboundLocalError`). -/
def converter_app (conversion_mode : String) (llm_choice : Option String)
    (openaiAvailable geminiAvailable : Bool)
    (openaiResp geminiResp : Except String String)
    (query : String) : AppOutcome :=
  match (if conversion_mode = "LLM Parser" then
      if llm_choice = some "OpenAI GPT-3.5" then
        if openaiAvailable then .ok (parse_conversion_query_openai openaiResp)
        else .error (.errorMsg "OpenAI API is not configured.")
      else if llm_choice = some "Google Gemini" then
        if geminiAvailable then .ok (parse_conversion_query_gemini geminiResp)
        else .error (.errorMsg "Google Gemini API is not configured.")
      else .error (.crash "UnboundLocalError: conversion_details")
    else .ok (.jobj (parse_conversion_query_regex query)) :
      Except AppOutcome JVal) with
  | .error out => out
  | .ok details => appProcess details

/-- A rate adapter with no data: every lookup fails.  Used to
instantiate non-currency statements, where the adapter is never
consulted. -/
def noRate : RateAdapter := fun _ _ => .error .RateUnavailable

/-- A rate adapter answering every request with rate 2 — a legal
behaviour under the adapter contract (§4.3), which fixes no value for
any pair of codes, identical codes included. -/
def rate2 : RateAdapter := fun _ _ => .ok 2

end UniFlex

namespace UniFlex

/-! ## Helper lemmas -/

/-- Every unit of the registry's seed table has positive scale. -/
theorem registry_scale_pos : ∀ u ∈ registry, 0 < u.scale := by
  intro u hu
  fin_cases hu <;>
    norm_num [meter, kilometer, mile, yard, foot, inch, centimeter, millimeter,
      kilogram, gram, pound, ounce, ton, stone, celsius, fahrenheit, kelvin,
      meter_per_second, kilometer_per_hour, mile_per_hour, knot,
      second, minute, hour, day, week, month, year,
      square_meter, square_kilometer, square_mile, square_yard, square_foot,
      square_inch, hectare, acre, liter, milliliter, gallon, cubic_meter,
      cubic_centimeter, joule, kilojoule, calorie, kilocalorie, watt_hour,
      kilowatt_hour, bit, byte, kilobyte, megabyte, gigabyte, terabyte,
      usd, eur, gbp, jpy, aud, cad, inr, cny]

/-- Lemma: `re.search` returns nothing exactly when the pattern matches at no
start position. -/
theorem searchFrom_eq_none_iff (s : List Char) :
    searchFrom s = none ↔ ∀ i : Nat, matchAt (s.drop i) = none := by
  induction s with
  | nil =>
    simp only [searchFrom, List.drop_nil]
    exact ⟨fun h _ => h, fun h => h 0⟩
  | cons c rest ih =>
    simp only [searchFrom]
    cases hm : matchAt (c :: rest) with
    | some r =>
      simp only [reduceCtorEq, false_iff, not_forall]
      exact ⟨0, by simp [hm]⟩
    | none =>
      rw [ih]
      constructor
      · intro h i
        cases i with
        | zero => simpa using hm
        | succ j => simpa using h j
      · intro h j
        simpa using h (j + 1)

/-- The engine on commensurable non-currency units with an affine
source: spec §4.2 steps 3–4 with the offset added at the source. -/
theorem convert_affine (rate : RateAdapter) (v : ℚ) (s t : SpecUnit)
    (hdim : s.dim = t.dim) (hcur : s.dim ≠ currencyDim) (hoff : s.offset ≠ 0) :
    convert rate v s t = .ok ((v + s.offset) * s.scale / t.scale - t.offset) := by
  have h1 : ¬s.dim ≠ t.dim := not_not_intro hdim
  simp only [convert, convertT, if_neg h1, if_neg hcur, if_pos hoff]

/-- The engine on commensurable non-currency units with a zero-offset
source: spec §4.2 steps 3–4, purely multiplicative at the source. -/
theorem convert_linear (rate : RateAdapter) (v : ℚ) (s t : SpecUnit)
    (hdim : s.dim = t.dim) (hcur : s.dim ≠ currencyDim) (hoff : s.offset = 0) :
    convert rate v s t = .ok (v * s.scale / t.scale - t.offset) := by
  have h1 : ¬s.dim ≠ t.dim := not_not_intro hdim
  have h2 : ¬s.offset ≠ 0 := not_not_intro hoff
  simp only [convert, convertT, if_neg h1, if_neg hcur, if_neg h2]

/-- The engine on currency units: delegation to the adapter, one call
recorded. -/
theorem convert_currency_eq (rate : RateAdapter) (v : ℚ) (s t : SpecUnit)
    (hdim : s.dim = t.dim) (hcur : s.dim = currencyDim) :
    convertT rate v s t =
      ((rate s.name t.name).map (fun r => v * r), [(s.name, t.name)]) := by
  have h1 : ¬s.dim ≠ t.dim := not_not_intro hdim
  simp only [convertT, if_neg h1, if_pos hcur]

/-- The regex mode of `converter_app` hands the regex dict to the
common tail. -/
theorem converter_app_regexMode (lc : Option String) (a b : Bool)
    (r g : Except String String) (q : String) :
    converter_app "Regex Parser" lc a b r g q =
      appProcess (.jobj (parse_conversion_query_regex q)) := rfl

/-- The available OpenAI mode of `converter_app` hands the OpenAI
strategy's outcome to the common tail. -/
theorem converter_app_openaiMode (b : Bool) (resp g : Except String String)
    (q : String) :
    converter_app "LLM Parser" (some "OpenAI GPT-3.5") true b resp g q =
      appProcess (parse_conversion_query_openai resp) := rfl

/-- With the OpenAI provider unavailable, `converter_app` reports the
configuration error and stops — whatever the provider argument, which
is never consulted. -/
theorem converter_app_openai_unavailable (b : Bool)
    (resp g : Except String String) (q : String) :
    converter_app "LLM Parser" (some "OpenAI GPT-3.5") false b resp g q =
      .errorMsg "OpenAI API is not configured." := rfl

/-- A dict carrying an `"error"` key is reported as that error. -/
theorem appProcess_error_key (fields : List (String × JVal)) (ev : JVal)
    (h : lookupField fields "error" = some ev) :
    appProcess (.jobj fields) = .errorMsg (displayJVal ev) := by
  simp only [appProcess, h]

/-- The common tail on a well-formed extraction dict of string fields:
parse the value, convert, and report success. -/
theorem appProcess_value_dict (v s t : String) (qv res : ℚ)
    (hv : pyFloat v = some qv) (hcu : convert_units qv s t = some res) :
    appProcess (.jobj [("value", .jstr v), ("source", .jstr s), ("target", .jstr t)]) =
      .success qv s t res := by
  have he : lookupField
      [("value", .jstr v), ("source", .jstr s), ("target", .jstr t)] "error" = none := rfl
  have hva : lookupField
      [("value", .jstr v), ("source", .jstr s), ("target", .jstr t)] "value" =
        some (.jstr v) := rfl
  have hs : lookupField
      [("value", .jstr v), ("source", .jstr s), ("target", .jstr t)] "source" =
        some (.jstr s) := rfl
  have ht : lookupField
      [("value", .jstr v), ("source", .jstr s), ("target", .jstr t)] "target" =
        some (.jstr t) := rfl
  simp only [appProcess, he, hva, hs, ht, floatOfJVal, hv, hcu, displayJVal]

/-- Evaluation: `float("10")` is exactly 10. -/
theorem pyFloat_10 : pyFloat "10" = some 10 := by
  have h : pyFloat "10" = some ((10 : ℕ) : ℚ) := rfl
  rw [h]
  norm_num

/-- Evaluation of `convert_units` on the tokens "km" and "miles": resolve to the
kilometre and mile catalogue entries and apply the multiplicative
path. -/
theorem convert_units_km_miles (v : ℚ) :
    convert_units v "km" "miles" = some (v * 1000 / 1609.344 - 0) := by
  have h1 : resolveToken "km" = some kilometer := rfl
  have h2 : resolveToken "miles" = some mile := rfl
  have h3 : mulPath v kilometer mile = .ok (v * 1000 / 1609.344 - 0) := by
    unfold mulPath
    rw [if_neg (by norm_num [kilometer]), if_neg (by decide)]
    norm_num [kilometer, mile]
  simp only [convert_units, h1, h2, h3]

/-! ## C1 — temperature conversions through the affine algorithm -/

/-- Claim C1. The engine computes `base = (value + offset) * scale` for an
affine source and `result = base / scale - offset` at the target
(spec §4.2), and consequently 0 °C is exactly 32 °F, 100 °C is exactly
212 °F, and 32 °F is exactly 0 °C — for any rate adapter, which the
temperature path never consults. -/
theorem C1_temperature_affine (rate : RateAdapter) :
    convert rate 0 celsius fahrenheit = .ok 32 ∧
    convert rate 100 celsius fahrenheit = .ok 212 ∧
    convert rate 32 fahrenheit celsius = .ok 0 ∧
    (∀ (v : ℚ) (s t : SpecUnit), s.dim = t.dim → s.dim ≠ currencyDim → s.offset ≠ 0 →
      convert rate v s t = .ok ((v + s.offset) * s.scale / t.scale - t.offset)) := by
  have hd : celsius.dim = fahrenheit.dim := rfl
  have hc : celsius.dim ≠ currencyDim := by decide
  have hd2 : fahrenheit.dim = celsius.dim := rfl
  have hc2 : fahrenheit.dim ≠ currencyDim := by decide
  have ho : celsius.offset ≠ 0 := by norm_num [celsius]
  have ho2 : fahrenheit.offset ≠ 0 := by norm_num [fahrenheit]
  refine ⟨?_, ?_, ?_, fun v s t hdim hcur hoff => convert_affine rate v s t hdim hcur hoff⟩
  · rw [convert_affine rate 0 celsius fahrenheit hd hc ho]
    norm_num [celsius, fahrenheit]
  · rw [convert_affine rate 100 celsius fahrenheit hd hc ho]
    norm_num [celsius, fahrenheit]
  · rw [convert_affine rate 32 fahrenheit celsius hd2 hc2 ho2]
    norm_num [celsius, fahrenheit]

/-- Witness for C1: the affine clause applied to 20 °C, which is
exactly 68 °F. -/
theorem C1_temperature_affine_witness :
    convert noRate 20 celsius fahrenheit = .ok 68 := by
  have h := (C1_temperature_affine noRate).2.2.2 20 celsius fahrenheit rfl
    (by decide) (by norm_num [celsius])
  rw [h]
  norm_num [celsius, fahrenheit]

/-! ## C2 — incompatible dimension vectors always fail -/

/-- Claim C2. For every value and every pair of units with unequal
dimension vectors the engine fails with `IncompatibleUnits`; dually, a
numeric result is only ever produced when the dimension vectors agree —
no conversion silently coerces incommensurable dimensions. -/
theorem C2_incompatible_dimensions (rate : RateAdapter) (x : ℚ) (u v : SpecUnit) :
    (u.dim ≠ v.dim → convert rate x u v = .error .IncompatibleUnits) ∧
    (∀ r : ℚ, convert rate x u v = .ok r → u.dim = v.dim) := by
  constructor
  · intro hne
    simp [convert, convertT, hne]
  · intro r hok
    by_contra hne
    simp [convert, convertT, hne] at hok

/-- Witness for C2: metres and kilograms have different dimension
vectors, and the conversion fails accordingly. -/
theorem C2_incompatible_dimensions_witness :
    convert noRate 1 meter kilogram = .error .IncompatibleUnits :=
  (C2_incompatible_dimensions noRate 1 meter kilogram).1 (by decide)

/-! ## C3 — the identity law

The claim asserts `convert(x, U, U) = x` exactly for *every* unit.  For
currency units the engine delegates to the external rate adapter
(spec §4.2 step 2) and returns `x * rate(U, U)`; the adapter contract
(§4.3) does not force the rate for identical codes to be 1, so an
adapter answering 2 — legal under the contract — breaks the identity.
The law holds for every registered non-currency unit, and for currency
units exactly when the adapter maps identical codes to rate 1. -/

/-- Claim C3, counterexample. With a contract-conforming adapter that
answers rate 2 for every pair of codes, converting 1 USD to USD yields
2, not 1: the identity law fails on a currency unit. -/
theorem C3_identity_cex :
    convert rate2 1 usd usd = .ok 2 ∧ convert rate2 1 usd usd ≠ .ok 1 := by
  have h : convert rate2 1 usd usd = .ok 2 := by
    have hc := convert_currency_eq rate2 1 usd usd rfl rfl
    simp only [convert, hc]
    norm_num [rate2, Except.map]
  exact ⟨h, by rw [h]; simp⟩

/-- Claim C3, amended. For every unit with nonzero scale,
`convert(x, U, U)` returns exactly `x` — provided, when `U` is a
currency, that the rate adapter answers 1 for identical codes (the
engine itself never consults scale or offset on the currency path). -/
theorem C3_identity_amended (rate : RateAdapter) (x : ℚ) (U : SpecUnit)
    (hscale : U.scale ≠ 0)
    (hrate : U.dim = currencyDim → rate U.name U.name = .ok 1) :
    convert rate x U U = .ok x := by
  by_cases hcur : U.dim = currencyDim
  · have h := convert_currency_eq rate x U U rfl hcur
    simp only [convert, h, hrate hcur]
    simp [Except.map]
  · by_cases hoff : U.offset = 0
    · rw [convert_linear rate x U U rfl hcur hoff, hoff]
      congr 1
      field_simp
    · rw [convert_affine rate x U U rfl hcur hoff]
      congr 1
      field_simp

/-- Witness for the amended C3: the identity on °C (an affine unit,
exercising the offset-cancellation path). -/
theorem C3_identity_amended_witness : convert noRate 5 celsius celsius = .ok 5 :=
  C3_identity_amended noRate 5 celsius (by norm_num [celsius])
    (fun h => absurd h (by decide))

/-! ## C4 — the round-trip law

Same situation as C3: currency units are registered with equal
dimension vectors and zero offset, yet their conversion goes through
the external adapter, whose outbound and inbound rates need not be
reciprocal.  For every pair of registered *non-currency* units with
equal dimension vectors and zero offsets, the round trip is exact. -/

/-- Claim C4, counterexample. USD and EUR are registered units with equal
dimension vectors and zero offsets, yet under a contract-conforming
adapter answering rate 2 in both directions the round trip maps 1 to 4,
not back to 1. -/
theorem C4_roundtrip_cex :
    usd ∈ registry ∧ eur ∈ registry ∧ usd.dim = eur.dim ∧
    usd.offset = 0 ∧ eur.offset = 0 ∧
    convert rate2 1 usd eur = .ok 2 ∧ convert rate2 2 eur usd = .ok 4 ∧
    (Except.ok (4 : ℚ) : Except ConvError ℚ) ≠ .ok 1 := by
  refine ⟨by simp [registry], by simp [registry], rfl, rfl, rfl, ?_, ?_, by simp⟩
  · have hc := convert_currency_eq rate2 1 usd eur rfl rfl
    simp only [convert, hc]
    norm_num [rate2, Except.map]
  · have hc := convert_currency_eq rate2 2 eur usd rfl rfl
    simp only [convert, hc]
    norm_num [rate2, Except.map]

/-- Claim C4, amended. For all registered units `A`, `B` with equal
dimension vectors, zero offsets and a non-currency dimension, the round
trip `convert(convert(x, A, B), B, A)` returns exactly `x` (exact
rational arithmetic; in particular within any floating-point
tolerance). -/
theorem C4_roundtrip_amended (rate : RateAdapter) (x : ℚ) (A B : SpecUnit)
    (hA : A ∈ registry) (hB : B ∈ registry) (hdim : A.dim = B.dim)
    (hoA : A.offset = 0) (hoB : B.offset = 0) (hcur : A.dim ≠ currencyDim) :
    ∃ y : ℚ, convert rate x A B = .ok y ∧ convert rate y B A = .ok x := by
  have hsA : A.scale ≠ 0 := (registry_scale_pos A hA).ne'
  have hsB : B.scale ≠ 0 := (registry_scale_pos B hB).ne'
  have hcurB : B.dim ≠ currencyDim := hdim ▸ hcur
  refine ⟨x * A.scale / B.scale, ?_, ?_⟩
  · rw [convert_linear rate x A B hdim hcur hoA, hoB]
    congr 1
    ring
  · rw [convert_linear rate _ B A hdim.symm hcurB hoB, hoA]
    congr 1
    field_simp

/-- Witness for the amended C4: the kilometre/mile round trip at 1. -/
theorem C4_roundtrip_amended_witness :
    ∃ y : ℚ, convert noRate 1 kilometer mile = .ok y ∧
      convert noRate y mile kilometer = .ok 1 :=
  C4_roundtrip_amended noRate 1 kilometer mile (by simp [registry])
    (by simp [registry]) rfl rfl rfl (by decide)

/-! ## C5 — the pattern-based strategy's contract -/

/-- Claim C5. The regex strategy matches the pattern
`[optional "convert "] signed-decimal unit-token (to|in) unit-token`
at the leftmost possible start position: "Convert 10 km to miles"
yields value "10", source "km", target "miles"; "gibberish with no
numbers" yields the `MalformedResponse` error dict; the error dict is
returned exactly when the pattern matches at no position of the input;
and captured tokens are not validated against any unit catalogue
("floopy"/"blarg" are captured verbatim). -/
theorem C5_regex_contract :
    parse_conversion_query_regex "Convert 10 km to miles" =
      [("value", .jstr "10"), ("source", .jstr "km"), ("target", .jstr "miles")] ∧
    parse_conversion_query_regex "gibberish with no numbers" =
      [("error", .jstr regexErrorMsg)] ∧
    (∀ q : String,
      parse_conversion_query_regex q = [("error", .jstr regexErrorMsg)] ↔
        ∀ i : Nat, matchAt (q.data.drop i) = none) ∧
    parse_conversion_query_regex "10 floopy to blarg" =
      [("value", .jstr "10"), ("source", .jstr "floopy"), ("target", .jstr "blarg")] := by
  refine ⟨rfl, rfl, fun q => ?_, rfl⟩
  cases h : searchFrom q.data with
  | none =>
    simp only [parse_conversion_query_regex, h]
    exact ⟨fun _ => (searchFrom_eq_none_iff q.data).mp h, fun _ => trivial⟩
  | some r =>
    obtain ⟨v, s, t⟩ := r
    simp only [parse_conversion_query_regex, h]
    constructor
    · intro hEq
      simp at hEq
    · intro hAll
      rw [(searchFrom_eq_none_iff q.data).mpr hAll] at h
      exact Option.noConfusion h

/-! ## C6 — no pipeline fallback exists

The claim asserts that when the structured-extraction strategy is
configured but returns non-JSON text, the pipeline advances and
produces the pattern strategy's result.  The code has no such chain:
the parser is chosen once from the UI mode, and a strategy error is
displayed as the final outcome — the regex strategy is never consulted
in LLM mode. -/

/-- Claim C6, counterexample. With the OpenAI strategy configured and
returning non-JSON text, the app reports the JSON-decode error for
"Convert 10 km to miles"; the pattern strategy's result for the same
query (10 km = 78125/12573 miles) is produced only in regex mode, and
the two outcomes differ — the pipeline does not fall back. -/
theorem C6_no_fallback_cex :
    converter_app "LLM Parser" (some "OpenAI GPT-3.5") true true
        (.ok "oops") (.ok "") "Convert 10 km to miles" =
      .errorMsg jsonDecodeError ∧
    converter_app "Regex Parser" none true true
        (.ok "oops") (.ok "") "Convert 10 km to miles" =
      .success 10 "km" "miles" (78125/12573) ∧
    AppOutcome.errorMsg jsonDecodeError ≠ .success 10 "km" "miles" (78125/12573) := by
  refine ⟨?_, ?_, by simp⟩
  · rw [converter_app_openaiMode]
    have hp : parse_conversion_query_openai (.ok "oops") =
        .jobj [("error", .jstr jsonDecodeError)] := rfl
    rw [hp, appProcess_error_key [("error", .jstr jsonDecodeError)] (.jstr jsonDecodeError) rfl]
    rfl
  · rw [converter_app_regexMode]
    have hre : parse_conversion_query_regex "Convert 10 km to miles" =
        [("value", .jstr "10"), ("source", .jstr "km"), ("target", .jstr "miles")] := rfl
    have hcu : convert_units 10 "km" "miles" = some (78125/12573) := by
      rw [convert_units_km_miles]
      norm_num
    rw [hre, appProcess_value_dict "10" "km" "miles" 10 (78125/12573) pyFloat_10 hcu]

/-- Claim C6, amended. When the structured strategy is configured and
returns unparsable output (or its call raises), the app surfaces that
strategy's error as the final outcome for the query — it never invokes
the pattern strategy; the pattern strategy's result is produced only in
regex mode, where the outcome depends on the query alone (never on the
providers). -/
theorem C6_no_fallback (q : String) (g : Except String String) :
    (∀ c : String, jsonLoads c = none →
      converter_app "LLM Parser" (some "OpenAI GPT-3.5") true true (.ok c) g q =
        .errorMsg jsonDecodeError) ∧
    (∀ e : String,
      converter_app "LLM Parser" (some "OpenAI GPT-3.5") true true (.error e) g q =
        .errorMsg e) ∧
    (∀ (lc lc2 : Option String) (a a2 b b2 : Bool) (r r2 g1 g2 : Except String String),
      converter_app "Regex Parser" lc a b r g1 q =
        converter_app "Regex Parser" lc2 a2 b2 r2 g2 q) := by
  refine ⟨fun c hc => ?_, fun e => ?_, fun lc lc2 a a2 b b2 r r2 g1 g2 => ?_⟩
  · rw [converter_app_openaiMode]
    have hp : parse_conversion_query_openai (.ok c) =
        .jobj [("error", .jstr jsonDecodeError)] := by
      simp only [parse_conversion_query_openai, hc]
    rw [hp, appProcess_error_key [("error", .jstr jsonDecodeError)] (.jstr jsonDecodeError) rfl]
    rfl
  · rw [converter_app_openaiMode]
    have hp : parse_conversion_query_openai (.error e) =
        .jobj [("error", .jstr e)] := rfl
    rw [hp, appProcess_error_key [("error", .jstr e)] (.jstr e) rfl]
    rfl
  · rw [converter_app_regexMode, converter_app_regexMode]

/-- Witness for the amended C6: non-JSON provider output on a query the
regex strategy could handle still yields the strategy error. -/
theorem C6_no_fallback_witness :
    converter_app "LLM Parser" (some "OpenAI GPT-3.5") true true
        (.ok "not json") (.ok "") "Convert 5 km to miles" =
      .errorMsg jsonDecodeError :=
  (C6_no_fallback "Convert 5 km to miles" (.ok "")).1 "not json" rfl

/-! ## C7 — the structured-model strategy's failure contract

The strategy turns provider exceptions and invalid JSON into the error
dict, but performs no key validation: valid JSON lacking `value`,
`source` or `target` is returned verbatim as a success, and the caller
then crashes on the missing key.  Unavailability is handled by the
caller with a terminal configuration error (no provider call), not by
the strategy. -/

/-- Claim C7, counterexample. Valid JSON lacking the required `value` key
is returned by the strategy as a success (no `"error"` key), not as
`MalformedResponse`; the orchestrator then fails on the key access
instead of classifying the response as malformed. -/
theorem C7_missing_keys_cex :
    parse_conversion_query_openai (.ok "\x7b\"source\": \"km\", \"target\": \"mile\"\x7d") =
      .jobj [("source", .jstr "km"), ("target", .jstr "mile")] ∧
    lookupField [("source", .jstr "km"), ("target", .jstr "mile")] "error" = none ∧
    converter_app "LLM Parser" (some "OpenAI GPT-3.5") true true
        (.ok "\x7b\"source\": \"km\", \"target\": \"mile\"\x7d") (.ok "") "q" =
      .crash "KeyError: value" :=
  ⟨rfl, rfl, rfl⟩

/-- Claim C7, amended. The strategy reports the error dict when the
provider call raises or when its output is not valid JSON; output that
parses as JSON is returned verbatim with no validation of required
keys; and when the provider is not configured the app reports a
configuration error without consulting the provider outcome at all. -/
theorem C7_structured_contract :
    (∀ e : String,
      parse_conversion_query_openai (.error e) = .jobj [("error", .jstr e)]) ∧
    (∀ c : String, jsonLoads c = none →
      parse_conversion_query_openai (.ok c) = .jobj [("error", .jstr jsonDecodeError)]) ∧
    (∀ (c : String) (v : JVal), jsonLoads c = some v →
      parse_conversion_query_openai (.ok c) = v) ∧
    (∀ (resp g : Except String String) (q : String) (b : Bool),
      converter_app "LLM Parser" (some "OpenAI GPT-3.5") false b resp g q =
        .errorMsg "OpenAI API is not configured.") := by
  refine ⟨fun e => rfl, fun c hc => ?_, fun c v hv => ?_,
    fun resp g q b => converter_app_openai_unavailable b resp g q⟩
  · simp only [parse_conversion_query_openai, hc]
  · simp only [parse_conversion_query_openai, hv]

/-- Witness for the amended C7: non-JSON text becomes the error dict,
while a JSON object lacking every required key is passed through
unvalidated. -/
theorem C7_structured_contract_witness :
    parse_conversion_query_openai (.ok "garbage") =
      .jobj [("error", .jstr jsonDecodeError)] ∧
    parse_conversion_query_openai (.ok "\x7b\"value\": 10\x7d") =
      .jobj [("value", .jnum ((10 : ℕ) : ℚ))] :=
  ⟨C7_structured_contract.2.1 "garbage" rfl,
   C7_structured_contract.2.2.1 "\x7b\"value\": 10\x7d"
     (.jobj [("value", .jnum ((10 : ℕ) : ℚ))]) rfl⟩

/-! ## C8 — currency delegation: one adapter call, value times rate -/

/-- Claim C8. On a currency-dimension conversion the engine calls the
rate adapter exactly once (the call trace is the one pair of codes) and
returns exactly `value * rate`; across two separate requests each
request performs its own single call against the adapter it was given,
so the second request's result is determined by the second adapter
alone — no rate is carried over. -/
theorem C8_currency_single_call :
    (∀ (rate : RateAdapter) (v : ℚ) (s t : SpecUnit),
      s.dim = currencyDim → t.dim = currencyDim →
      convertCalls rate v s t = [(s.name, t.name)] ∧
      convert rate v s t = (rate s.name t.name).map (fun r => v * r) ∧
      (∀ r : ℚ, rate s.name t.name = .ok r → convert rate v s t = .ok (v * r))) ∧
    (∀ (rate1 rate2 : RateAdapter) (v1 v2 : ℚ) (s t : SpecUnit),
      s.dim = currencyDim → t.dim = currencyDim →
      convertCalls rate1 v1 s t ++ convertCalls rate2 v2 s t =
        [(s.name, t.name), (s.name, t.name)] ∧
      convert rate2 v2 s t = (rate2 s.name t.name).map (fun r => v2 * r)) := by
  have key : ∀ (rate : RateAdapter) (v : ℚ) (s t : SpecUnit),
      s.dim = currencyDim → t.dim = currencyDim →
      convertCalls rate v s t = [(s.name, t.name)] ∧
      convert rate v s t = (rate s.name t.name).map (fun r => v * r) := by
    intro rate v s t hs ht
    have h := convert_currency_eq rate v s t (hs.trans ht.symm) hs
    exact ⟨by rw [convertCalls, h], by rw [convert, h]⟩
  refine ⟨fun rate v s t hs ht => ?_, fun rate1 rate2 v1 v2 s t hs ht => ?_⟩
  · obtain ⟨h1, h2⟩ := key rate v s t hs ht
    refine ⟨h1, h2, fun r hr => ?_⟩
    rw [h2, hr]
    rfl
  · obtain ⟨h1, _⟩ := key rate1 v1 s t hs ht
    obtain ⟨h3, h4⟩ := key rate2 v2 s t hs ht
    rw [h1, h3]
    exact ⟨rfl, h4⟩

/-- Witness for C8: converting 3 USD to EUR against an adapter quoting
rate 2 performs exactly the one call ("USD", "EUR") and returns 6. -/
theorem C8_currency_single_call_witness :
    convertCalls rate2 3 usd eur = [("USD", "EUR")] ∧
    convert rate2 3 usd eur = .ok 6 := by
  have h := C8_currency_single_call.1 rate2 3 usd eur rfl rfl
  refine ⟨h.1, ?_⟩
  have h2 := h.2.2 2 rfl
  rw [h2]
  norm_num

/-! ## C9 — the two conversion paths agree on zero-offset units -/

/-- Claim C9. The temperature branch (Quantity construction + `.to`) and
the general branch (multiplication + `.to`) of `convert_units` compute
the same result on every pair of commensurable zero-offset units — and
agree on the error for incommensurable ones — so routing a non-affine
conversion through either branch is equivalent. -/
theorem C9_paths_equivalent (v : ℚ) (s t : SpecUnit)
    (hs : s.offset = 0) (ht : t.offset = 0) :
    quantityPath v s t = mulPath v s t := by
  simp only [quantityPath, mulPath, hs, ht]
  rw [if_neg (by norm_num : ¬(0 : ℚ) ≠ 0)]
  by_cases hdim : s.dim ≠ t.dim
  · rw [if_pos hdim, if_pos hdim]
  · rw [if_neg hdim, if_neg hdim]
    norm_num

/-- Witness for C9: metres to kilometres through both branches. -/
theorem C9_paths_equivalent_witness :
    quantityPath 7 meter kilometer = mulPath 7 meter kilometer :=
  C9_paths_equivalent 7 meter kilometer rfl rfl

/-! ## C10 — failure is the presence of an `"error"` key

Strategy outcomes are plain dicts; `converter_app` classifies an
outcome as a failure exactly when the key `"error"` is present.  A
legitimately extracted object that happens to carry an `"error"` field
alongside `value`, `source` and `target` is therefore treated as a
failure and the conversion is never attempted. -/

/-- Claim C10. If the provider's output parses to a JSON object whose
fields include `"error"` — even alongside `value`, `source` and
`target` — the app reports that error value and never produces a
success outcome. -/
theorem C10_error_key_overloaded (raw q : String) (g : Except String String)
    (fields : List (String × JVal)) (ev : JVal)
    (hjson : jsonLoads raw = some (.jobj fields))
    (herr : lookupField fields "error" = some ev)
    (_hval : (lookupField fields "value").isSome)
    (_hsrc : (lookupField fields "source").isSome)
    (_htgt : (lookupField fields "target").isSome) :
    converter_app "LLM Parser" (some "OpenAI GPT-3.5") true true (.ok raw) g q =
      .errorMsg (displayJVal ev) ∧
    (∀ (x : ℚ) (s t : String) (r : ℚ),
      converter_app "LLM Parser" (some "OpenAI GPT-3.5") true true (.ok raw) g q ≠
        .success x s t r) := by
  have hp : parse_conversion_query_openai (.ok raw) = .jobj fields := by
    simp only [parse_conversion_query_openai, hjson]
  have h1 : converter_app "LLM Parser" (some "OpenAI GPT-3.5") true true
      (.ok raw) g q = .errorMsg (displayJVal ev) := by
    rw [converter_app_openaiMode, hp, appProcess_error_key fields ev herr]
  refine ⟨h1, fun x s t r => ?_⟩
  rw [h1]
  simp

/-- Witness for C10: an extraction carrying all three data fields plus
an `"error"` field is classified as the failure "boom"; the conversion
of 10 km is never performed. -/
theorem C10_error_key_overloaded_witness :
    converter_app "LLM Parser" (some "OpenAI GPT-3.5") true true
        (.ok "\x7b\"value\": \"10\", \"source\": \"km\", \"target\": \"mile\", \"error\": \"boom\"\x7d")
        (.ok "") "Convert 10 km to mile" =
      .errorMsg "boom" :=
  (C10_error_key_overloaded
    "\x7b\"value\": \"10\", \"source\": \"km\", \"target\": \"mile\", \"error\": \"boom\"\x7d"
    "Convert 10 km to mile" (.ok "")
    [("value", .jstr "10"), ("source", .jstr "km"), ("target", .jstr "mile"),
     ("error", .jstr "boom")]
    (.jstr "boom") rfl rfl rfl rfl rfl).1

end UniFlex
